import Mathlib

/-!
Verification of the MediNote backend chunk-ingestion subsystem
(`app/routes/websocket.py`, `app/routes/sessions.py`, `app/crud.py`,
`app/supabase_service.py`, `app/models.py`) against its natural-language
specification.

The durable store is modelled as an explicit value: one (optional) session
row plus the list of audio-chunk rows, carrying exactly the columns that
`models.py` declares.  The declared attribute names of the two ORM models
are transcribed as string lists, because the program's behaviour hinges on
them: the handlers and `crud.py` reference attributes (`last_chunk_number`,
`total_chunks_expected`, `last_activity`, `pause_count`, `upload_status`,
`file_size`) that the models never declare, so in Python

* reading such an attribute from a loaded row raises `AttributeError`,
* passing it as a constructor keyword raises `TypeError`
  (the declarative constructor rejects undeclared keywords), and
* putting it in a `Query.update` dict raises an unmapped-attribute error,

and in each case only `ValueError` (from UUID parsing) is caught.  Handlers
therefore return an explicit exception outcome (`Except`/pair with an error
message) together with the durable state actually committed; a raised call
commits nothing.  The external object store is a parameter describing the
outcome of each attempted provider call; timestamps are abstract ticks
(`Nat`); identifiers are taken to be well-formed UUID strings, so the
`ValueError` branches (which return `None`/empty quietly) are not taken.
-/

set_option linter.unusedVariables false

namespace MediNote

/-- The mapped column names of `models.Session` (models.py:53-70), the only
keys `Query.update` accepts for that entity.  Note: no `last_chunk_number`,
`total_chunks_expected`, `is_resumable`, `last_activity`, `pause_count` or
`resume_count`. -/
def sessionColumnNames : List String :=
  ["id", "user_id", "patient_id", "patient_name", "session_title", "session_summary",
   "transcript", "transcript_status", "status", "date", "start_time", "end_time",
   "duration", "template_id", "created_at"]

/-- All declared attributes of `models.Session` (columns plus the
relationships at models.py:72-76), the names readable on a loaded row and
accepted by the declarative constructor. -/
def sessionDeclaredAttrs : List String :=
  sessionColumnNames ++ ["user", "patient", "template", "audio_chunks"]

/-- The mapped column names of `models.AudioChunk` (models.py:78-88).
Note: no `upload_status`, `file_size` or `retry_count`. -/
def audioChunkColumnNames : List String :=
  ["id", "session_id", "chunk_number", "gcs_path", "public_url", "mime_type",
   "is_processed", "created_at"]

/-- All declared attributes of `models.AudioChunk` (columns plus the
`session` relationship, models.py:90-91). -/
def audioChunkDeclaredAttrs : List String :=
  audioChunkColumnNames ++ ["session"]

/-- One session row, restricted to the columns `models.Session` actually
declares that the verified handlers read or write (`status`,
`transcript_status`, `end_time`, `duration`), plus the primary key.  The
identity/patient/transcript-text columns that no verified operation
inspects are omitted.  The chunk-counter/activity fields of the spec have
no column here — that absence, recorded in `sessionColumnNames` /
`sessionDeclaredAttrs`, drives the error behaviour below. -/
structure Session where
  id : String
  status : String
  transcriptStatus : String
  endTime : Option Nat
  duration : Option String
  deriving Repr, DecidableEq

/-- One audio-chunk row with the columns `models.AudioChunk` declares
(minus the opaque `id`/`created_at`).  There is no upload-status or
file-size column. -/
structure AudioChunk where
  sessionId : String
  chunkNumber : Int
  gcsPath : String
  publicUrl : Option String
  mimeType : String
  isProcessed : Bool
  deriving Repr, DecidableEq

/-- The durable store as seen by one session: at most one session row and
the audio-chunk rows. -/
structure DBState where
  session : Option Session
  chunks : List AudioChunk
  deriving Repr, DecidableEq

/-- Text frames the websocket handlers send back to the client. -/
inductive WsMsg where
  | sessionConfirmed (sessionId : String)
  | streamingPaused (sessionId : String)
  | streamingResumed (sessionId : String)
  | streamingStopped (sessionId : String)
  | audioReceived
  | errorReply (message : String)
  deriving Repr, DecidableEq

/-- Outcome of one `supabase_service.upload_audio_chunk` call, had the
ingestion path ever reached the store: a truthy success (with public
locator) or a falsy/raising result. -/
inductive UploadOutcome where
  | ok (publicUrl : Option String)
  | err
  deriving Repr, DecidableEq

/-- `db.query(Session).filter(Session.id == session_id).first()` over a
store holding at most one session row. -/
def findSession (st : DBState) (sessionId : String) : Option Session :=
  match st.session with
  | none => none
  | some s => if s.id = sessionId then some s else none

/-- `Query.filter(Session.id == id).update(update_data)`: raises when any
dict key is not a mapped column of `models.Session`; otherwise applies the
update (carried by `apply`, covering the mapped keys' effect) to the
matching row and reports success. -/
def query_update_session (st : DBState) (sessionId : String) (keys : List String)
    (apply : Session → Session) : Except String DBState :=
  if keys.all (fun k => sessionColumnNames.contains k) then
    Except.ok
      (match st.session with
       | none => st
       | some s => if s.id = sessionId then { st with session := some (apply s) } else st)
  else Except.error "InvalidRequestError: unmapped attribute in Query.update"

/-- `crud.update_session_status` (crud.py:201-212): `update_data` always
contains the keys `status` and `last_activity` plus the call site's keyword
keys, and the whole dict goes to `Query.update`.  `last_activity` is not a
column of `models.Session`, so in this program every call raises (only
`ValueError` being caught) and commits nothing; `apply2` carries the effect
of the call site's mapped extra keys, reachable only were all keys
mapped. -/
def update_session_status (sessionId status : String) (extraKeys : List String)
    (apply2 : Session → Session) (st : DBState) : Except String DBState :=
  query_update_session st sessionId ("status" :: "last_activity" :: extraKeys)
    (fun s => apply2 { s with status := status })

/-- `crud.create_audio_chunk` (crud.py:154-179): constructs
`AudioChunk(session_id=…, chunk_number=…, gcs_path=…, public_url=…,
mime_type=…, file_size=…, upload_status="uploaded")`.  The declarative
constructor rejects any keyword that is not a declared attribute;
`models.AudioChunk` declares neither `file_size` nor `upload_status`, so
the construction raises `TypeError` before any insert (only `ValueError`
is caught).  Were every keyword declared, the row would be inserted with
its mapped columns. -/
def create_audio_chunk (sessionId : String) (chunkNumber : Int)
    (gcsPath mimeType : String) (publicUrl : Option String) (st : DBState) :
    Except String DBState :=
  if ["session_id", "chunk_number", "gcs_path", "public_url", "mime_type",
      "file_size", "upload_status"].all (fun k => audioChunkDeclaredAttrs.contains k) then
    Except.ok { st with chunks := st.chunks ++
      [{ sessionId := sessionId, chunkNumber := chunkNumber, gcsPath := gcsPath,
         publicUrl := publicUrl, mimeType := mimeType, isProcessed := false }] }
  else Except.error "TypeError: invalid keyword argument for AudioChunk"

/-- Body of a `POST /v1/notify-chunk-uploaded` request
(`schemas.ChunkNotification`; the template/model fields are unused by the
handler and omitted). -/
structure ChunkNotification where
  sessionId : String
  gcsPath : String
  chunkNumber : Int
  isLast : Bool
  totalChunksClient : Int
  publicUrl : Option String
  mimeType : String
  deriving Repr, DecidableEq

/-- `notify_chunk_uploaded` (`app/routes/sessions.py:107-148`): 404 when
the session row is absent; otherwise the first `crud.update_session_status`
call — whose dict carries `status`, `last_activity`, `last_chunk_number`
and `total_chunks_expected` — raises on the unmapped keys and the exception
propagates out of the route with nothing committed.  The later steps
(chunk insert, `processing` update on `isLast`) are written out but
unreachable in this program.  Result: the durable state actually committed
so far, paired with the response outcome. -/
def notify_chunk_uploaded (n : ChunkNotification) (now : Nat) (st : DBState) :
    DBState × Except String Unit :=
  match findSession st n.sessionId with
  | none => (st, Except.error "Session not found")
  | some _ =>
      match update_session_status n.sessionId "recording"
          ["last_chunk_number", "total_chunks_expected"] (fun s => s) st with
      | Except.error e => (st, Except.error e)
      | Except.ok st1 =>
          match create_audio_chunk n.sessionId n.chunkNumber n.gcsPath n.mimeType
              n.publicUrl st1 with
          | Except.error e => (st1, Except.error e)
          | Except.ok st2 =>
              if n.isLast then
                match update_session_status n.sessionId "processing" ["transcript_status"]
                    (fun s => { s with transcriptStatus := "processing" }) st2 with
                | Except.error e => (st2, Except.error e)
                | Except.ok st3 => (st3, Except.ok ())
              else (st2, Except.ok ())

/-- `process_audio_chunk` (`app/routes/websocket.py:319-399`): returns when
the session row is absent; otherwise it evaluates
`session.last_chunk_number + 1` (websocket.py:332) — `models.Session`
declares no `last_chunk_number` attribute, so the read raises
`AttributeError` before the chunk record is built and before any store
call; the function's outer handler (websocket.py:387) catches it, rolls
back and returns normally.  Either way the store is unchanged and zero
upload attempts are made; the result pairs the (unchanged) durable state
with the number of store upload calls performed. -/
def process_audio_chunk (sessionId : String) (audioLen : Nat)
    (attempts : Nat → UploadOutcome) (now : Nat) (st : DBState) : DBState × Nat :=
  match findSession st sessionId with
  | none => (st, 0)
  -- websocket.py:327-329: session missing, log and return
  | some s => (st, 0)
  -- websocket.py:332: AttributeError on the undeclared last_chunk_number,
  -- caught at websocket.py:387 (rollback); no store call, no insert

/-- `ConnectionManager.session_connections` lookup performed by
`handle_audio_data`: first session id whose registered connection id equals
this connection. -/
def resolveSession (sessionConnections : List (String × String))
    (connectionId : String) : Option String :=
  (sessionConnections.find? (fun p => p.2 == connectionId)).map (fun p => p.1)

/-- `handle_audio_data` (`app/routes/websocket.py:293-317`): when no
session is bound to the connection it logs and returns (no state change,
no reply); otherwise it runs `process_audio_chunk` — whose internal
exception is swallowed there — and then sends the `audio_received`
acknowledgement. -/
def handle_audio_data (sessionConnections : List (String × String))
    (connectionId : String) (audioLen : Nat) (attempts : Nat → UploadOutcome)
    (now : Nat) (st : DBState) : DBState × List WsMsg :=
  match resolveSession sessionConnections connectionId with
  | none => (st, [])
  | some sid =>
      ((process_audio_chunk sid audioLen attempts now st).1, [WsMsg.audioReceived])

/-- `handle_stop_streaming` (`app/routes/websocket.py:250-291`): when the
session row exists, assigns `status = "completed"` and `end_time` (both
mapped columns, so the commit persists them); the additional
`session.last_activity` assignment binds an undeclared instance attribute
that the commit silently drops.  In both cases it replies with a
`streaming_stopped` confirmation. -/
def handle_stop_streaming (sessionId : String) (now : Nat) (st : DBState) :
    DBState × List WsMsg :=
  match findSession st sessionId with
  | none => (st, [WsMsg.streamingStopped sessionId])
  | some s =>
      let s2 : Session := { s with status := "completed", endTime := some now }
      ({ st with session := some s2 }, [WsMsg.streamingStopped sessionId])

/-- `handle_pause_streaming` (`app/routes/websocket.py:214-230`): sends the
`streaming_paused` acknowledgement; the session-status update is left as a
comment in the source, so no state is read or written. -/
def handle_pause_streaming (sessionId : String) (st : DBState) :
    DBState × List WsMsg :=
  (st, [WsMsg.streamingPaused sessionId])

/-- `crud.pause_session` (crud.py:214-226): when the row exists it assigns
`session.status = "paused"` in memory, then `session.pause_count += 1`
reads the undeclared attribute `pause_count` and raises `AttributeError`
before `db.commit()`; only `ValueError` is caught, so the exception
propagates and nothing is persisted.  When the row is absent it falls
through and returns `None` without error. -/
def crud_pause_session (sessionId : String) (now : Nat) (st : DBState) :
    DBState × Except String Unit :=
  match findSession st sessionId with
  | none => (st, Except.ok ())
  | some s => (st, Except.error "AttributeError: pause_count")

/-- `POST /v1/session/pause` (`app/routes/sessions.py:242-256`): 404 when
the session row is absent, 400 when its status is not `"recording"`,
otherwise delegates to `crud.pause_session` (whose exception escapes the
route as a 500). -/
def pause_session_route (sessionId : String) (reason : Option String) (now : Nat)
    (st : DBState) : DBState × Except String Unit :=
  match findSession st sessionId with
  | none => (st, Except.error "Session not found")
  | some s =>
      if s.status = "recording" then crud_pause_session sessionId now st
      else (st, Except.error "Session is not currently recording")

/-- Insertion step of the `ORDER BY chunk_number` applied by
`crud.get_chunks_by_session_id`. -/
def insertByNumber (c : AudioChunk) : List AudioChunk → List AudioChunk
  | [] => [c]
  | d :: ds => if c.chunkNumber ≤ d.chunkNumber then c :: d :: ds else d :: insertByNumber c ds

/-- Ascending sort by `chunk_number` (the `ORDER BY` of
`crud.get_chunks_by_session_id`), as a structural insertion sort. -/
def orderByChunkNumber : List AudioChunk → List AudioChunk
  | [] => []
  | c :: cs => insertByNumber c (orderByChunkNumber cs)

/-- `crud.get_chunks_by_session_id` (crud.py:181-188): chunk rows of the
session, ordered by `chunk_number` (this function touches only declared
columns and works). -/
def get_chunks_by_session_id (st : DBState) (sessionId : String) : List AudioChunk :=
  orderByChunkNumber (st.chunks.filter (fun c => decide (c.sessionId = sessionId)))

/-- The missing-chunk formula written at crud.py:253-258:
`sorted(list(set(range(1, total+1)) - set(uploaded)))` when the expected
total is truthy (set and non-zero), else `[]` — rendered executably as the
ascending enumeration of `{1..total}` filtered by non-membership.  In this
program the formula is dead code: `get_session_progress` raises before
reaching it (see below). -/
def missing_chunks_calc (totalExpected : Option Int) (uploaded : List Int) : List Int :=
  match totalExpected with
  | none => []
  | some t =>
      if t = 0 then []
      else ((List.range t.toNat).map (fun i : Nat => ((i : Int) + 1))).filter
        (fun n => decide (n ∉ uploaded))

/-- Shape of the dict `crud.get_session_progress` is written to return
(the session object and the floating-point percentage omitted).  The
function never actually constructs it in this program. -/
structure ProgressInfo where
  chunksUploaded : Nat
  totalExpected : Option Int
  missingChunks : List Int
  lastChunk : Int
  deriving Repr, DecidableEq

/-- `crud.get_session_progress` (crud.py:242-269): `None` when the session
row is absent.  Otherwise the list comprehension at crud.py:251 evaluates
`c.upload_status` for the first chunk row — an attribute
`models.AudioChunk` does not declare — and raises `AttributeError`; with no
chunk rows the comprehension is empty and the `session.total_chunks_expected`
read at crud.py:254 raises instead.  Only `ValueError` is caught, so for
every existing session the call raises and never returns the progress
dict. -/
def get_session_progress (st : DBState) (sessionId : String) :
    Except String (Option ProgressInfo) :=
  match findSession st sessionId with
  | none => Except.ok none
  | some s =>
      if (get_chunks_by_session_id st sessionId).isEmpty then
        Except.error "AttributeError: total_chunks_expected"
      else
        Except.error "AttributeError: upload_status"

/-- Spec §4.5, stated in the spec's own words: `missingChunks` is the set
difference `{1..totalExpected} - {uploaded chunk numbers}`, sorted
ascending; empty when `totalExpected` is unset.  Used only to compare the
source formula `missing_chunks_calc` against the specification. -/
def specMissingChunks (totalExpected : Option Int) (uploaded : List Int) : List Int :=
  match totalExpected with
  | none => []
  | some t => ((Finset.Icc 1 t) \ uploaded.toFinset).sort (fun a b => a ≤ b)

/-- Shape of a presign result (`generate_presigned_url`); the auth-header
dictionary is omitted (constant strings no claim reads). -/
structure PresignResult where
  success : Bool
  presignedUrl : String
  publicUrl : String
  path : String
  deriving Repr, DecidableEq

/-- `SupabaseService._local_storage_response`: the development fallback,
always successful against the mock location. -/
def local_storage_response (bucketName filePath : String) : PresignResult :=
  { success := true,
    presignedUrl := "https://httpbin.org/put",
    publicUrl := "https://mock-storage.local/" ++ bucketName ++ "/" ++ filePath,
    path := filePath }

/-- `SupabaseService.generate_presigned_url`: with no client configured,
fall back to the local-storage response; with a client, the provider
interaction either yields a result or raises, and a raise also falls back
to the local-storage response.  The provider interaction itself is the
out-of-scope external SDK, passed as `providerAttempt`. -/
def generate_presigned_url (clientConfigured : Bool)
    (providerAttempt : Except String PresignResult)
    (bucketName filePath : String) : PresignResult :=
  if clientConfigured then
    match providerAttempt with
    | Except.ok r => r
    | Except.error _ => local_storage_response bucketName filePath
  else local_storage_response bucketName filePath

/-- Chunk descriptor returned by `SupabaseService.get_session_audio_chunks`. -/
structure ChunkDescriptor where
  chunkNumber : Int
  fileName : String
  publicUrl : String
  deriving Repr, DecidableEq

/-- Insertion step of the `chunks.sort(key=chunk_number)` in
`get_session_audio_chunks`. -/
def insertDescriptor (c : ChunkDescriptor) : List ChunkDescriptor → List ChunkDescriptor
  | [] => [c]
  | d :: ds => if c.chunkNumber ≤ d.chunkNumber then c :: d :: ds else d :: insertDescriptor c ds

/-- Ascending sort of chunk descriptors by chunk number. -/
def sortDescriptors : List ChunkDescriptor → List ChunkDescriptor
  | [] => []
  | c :: cs => insertDescriptor c (sortDescriptors cs)

/-- `SupabaseService.get_session_audio_chunks`: `[]` with no client
configured; with a client, the provider listing (already shaped into
descriptors) is sorted by chunk number, and a raised exception yields
`[]`. -/
def get_session_audio_chunks (clientConfigured : Bool)
    (providerAttempt : Except String (List ChunkDescriptor))
    (sessionId : String) : List ChunkDescriptor :=
  if clientConfigured then
    match providerAttempt with
    | Except.ok cs => sortDescriptors cs
    | Except.error _ => []
  else []

/-- Result dictionary of `SupabaseService.upload_audio_chunk`. -/
structure UploadServiceResult where
  success : Bool
  path : Option String
  publicUrl : Option String
  error : Option String
  deriving Repr, DecidableEq

/-- `SupabaseService.upload_audio_chunk`: with no client configured it
returns `success=False, error="Supabase not configured"`; with a client the
provider interaction (direct upload, bucket handling and the temp-file
fallback, all against the out-of-scope SDK) yields a result dictionary, and
an exception escaping it yields `success=False` with the exception text. -/
def upload_audio_chunk (clientConfigured : Bool)
    (providerAttempt : Except String UploadServiceResult)
    (filePath : String) : UploadServiceResult :=
  if clientConfigured then
    match providerAttempt with
    | Except.ok r => r
    | Except.error e => { success := false, path := none, publicUrl := none, error := some e }
  else { success := false, path := none, publicUrl := none, error := some "Supabase not configured" }

/-- Number of chunk rows recorded for a given `(sessionId, chunkNumber)`. -/
def chunkRecordCount (st : DBState) (sessionId : String) (chunkNumber : Int) : Nat :=
  (st.chunks.filter (fun c => decide (c.sessionId = sessionId ∧ c.chunkNumber = chunkNumber))).length

/-- A recording session row as `handle_session_start` would create it were
its constructor call valid — here, a preexisting row with the declared
columns only. -/
def sampleSession : Session :=
  { id := "s1", status := "recording", transcriptStatus := "pending",
    endTime := none, duration := none }

/-- A chunk row of session `"s1"` already durably stored at the given
number (an externally prepared row: no code path of this subsystem inserts
chunk rows). -/
def mkChunkRow (num : Int) (path : String) : AudioChunk :=
  { sessionId := "s1", chunkNumber := num, gcsPath := path, publicUrl := none,
    mimeType := "audio/mp4", isProcessed := true }

/-- A recording session with an existing chunk-2 row, for duplicate
delivery. -/
def dupState : DBState :=
  { session := some sampleSession, chunks := [mkChunkRow 2 "p2"] }

/-- A second delivery of chunk number 2 (`isLast = false`). -/
def dupNotification : ChunkNotification :=
  { sessionId := "s1", gcsPath := "q2", chunkNumber := 2, isLast := false,
    totalChunksClient := 5, publicUrl := none, mimeType := "audio/mp4" }

/-- A final-chunk notification (`isLast = true`, two chunks total). -/
def lastNotification : ChunkNotification :=
  { sessionId := "s1", gcsPath := "g2", chunkNumber := 2, isLast := true,
    totalChunksClient := 2, publicUrl := none, mimeType := "audio/mp4" }

/-- A session in post-recording `processing` state. -/
def processingState : DBState :=
  { session := some { sampleSession with status := "processing" }, chunks := [] }

/-- A fresh recording-session store with no chunks. -/
def freshState : DBState :=
  { session := some sampleSession, chunks := [] }

theorem findSession_eq_some {st : DBState} {sid : String} {s : Session} :
    findSession st sid = some s ↔ st.session = some s ∧ s.id = sid := by
  constructor
  · intro h
    unfold findSession at h
    cases hs : st.session with
    | none =>
        rw [hs] at h
        exact Option.noConfusion h
    | some s0 =>
        rw [hs] at h
        by_cases hid : s0.id = sid
        · have h3 : (if s0.id = sid then some s0 else none) = some s := h
          rw [if_pos hid] at h3
          have h4 := Option.some.inj h3
          subst h4
          exact ⟨rfl, hid⟩
        · have h3 : (if s0.id = sid then some s0 else none) = some s := h
          rw [if_neg hid] at h3
          exact Option.noConfusion h3
  · rintro ⟨hs, hid⟩
    unfold findSession
    rw [hs]
    show (if s.id = sid then some s else none) = some s
    rw [if_pos hid]

theorem update_session_status_raises (sessionId status : String)
    (extraKeys : List String) (apply2 : Session → Session) (st : DBState) :
    update_session_status sessionId status extraKeys apply2 st =
      Except.error "InvalidRequestError: unmapped attribute in Query.update" := rfl

theorem create_audio_chunk_raises (sessionId : String) (chunkNumber : Int)
    (gcsPath mimeType : String) (publicUrl : Option String) (st : DBState) :
    create_audio_chunk sessionId chunkNumber gcsPath mimeType publicUrl st =
      Except.error "TypeError: invalid keyword argument for AudioChunk" := rfl

theorem notify_chunk_uploaded_fails (n : ChunkNotification) (now : Nat) (st : DBState) :
    (notify_chunk_uploaded n now st).1 = st ∧
    ∃ e, (notify_chunk_uploaded n now st).2 = Except.error e := by
  unfold notify_chunk_uploaded
  cases hf : findSession st n.sessionId with
  | none => exact ⟨rfl, "Session not found", rfl⟩
  | some s =>
      exact ⟨rfl, "InvalidRequestError: unmapped attribute in Query.update", rfl⟩

theorem process_audio_chunk_noop (sessionId : String) (audioLen : Nat)
    (attempts : Nat → UploadOutcome) (now : Nat) (st : DBState) :
    process_audio_chunk sessionId audioLen attempts now st = (st, 0) := by
  unfold process_audio_chunk
  cases hf : findSession st sessionId with
  | none => rfl
  | some s => rfl

theorem sorted_lt_missing_calc (total : Option Int) (up : List Int) :
    List.Sorted (fun a b => a < b) (missing_chunks_calc total up) := by
  cases total with
  | none => simp [missing_chunks_calc]
  | some t =>
      simp only [missing_chunks_calc]
      by_cases ht : t = 0
      · rw [if_pos ht]
        simp
      · rw [if_neg ht]
        have hp : ((List.range t.toNat).map (fun i : Nat => ((i : Int) + 1))).Pairwise
            (fun a b => a < b) := by
          rw [List.pairwise_map]
          exact (List.pairwise_lt_range t.toNat).imp (fun h => by omega)
        exact List.Pairwise.sublist (List.filter_sublist _) hp

theorem mem_missing_calc {total : Option Int} {up : List Int} {n : Int} :
    n ∈ missing_chunks_calc total up ↔
      ∃ t, total = some t ∧ 1 ≤ n ∧ n ≤ t ∧ n ∉ up := by
  cases total with
  | none => simp [missing_chunks_calc]
  | some t =>
      simp only [missing_chunks_calc]
      by_cases ht : t = 0
      · rw [if_pos ht]
        subst ht
        simp
        intro h1 h2
        omega
      · rw [if_neg ht]
        simp only [List.mem_filter, List.mem_map, List.mem_range, decide_eq_true_eq,
          Option.some.injEq]
        constructor
        · rintro ⟨⟨i, hi, rfl⟩, hnot⟩
          exact ⟨t, rfl, by omega, by omega, hnot⟩
        · rintro ⟨t2, ht2, h1, h2, h3⟩
          subst ht2
          exact ⟨⟨(n - 1).toNat, by omega, by omega⟩, h3⟩

theorem missing_calc_eq_spec (total : Option Int) (up : List Int) :
    missing_chunks_calc total up = specMissingChunks total up := by
  cases total with
  | none => rfl
  | some t =>
      unfold specMissingChunks
      apply List.eq_of_perm_of_sorted (r := fun a b => a ≤ b)
      · apply List.perm_of_nodup_nodup_toFinset_eq
        · exact List.Pairwise.imp (fun h => ne_of_lt h) (sorted_lt_missing_calc (some t) up)
        · exact Finset.sort_nodup _ _
        · ext a
          simp only [List.mem_toFinset, mem_missing_calc, Option.some.injEq,
            Finset.mem_sort, Finset.mem_sdiff, Finset.mem_Icc]
          constructor
          · rintro ⟨t2, ht2, h1, h2, h3⟩
            subst ht2
            exact ⟨⟨h1, h2⟩, h3⟩
          · rintro ⟨⟨h1, h2⟩, h3⟩
            exact ⟨t, rfl, h1, h2, h3⟩
      · exact List.Pairwise.imp (fun h => le_of_lt h) (sorted_lt_missing_calc (some t) up)
      · exact Finset.sort_sorted _ _

/-- C1 counterexample: the stop signal received for the session in status
`recording` sets the status to `completed`, not `processing`, so
`completed` is reached by stop handling alone. -/
theorem C1_stop_sets_completed_counterexample :
    (handle_stop_streaming "s1" 9 freshState).1.session =
      some { sampleSession with status := "completed", endTime := some 9 } ∧
    sampleSession.status = "recording" ∧
    ("completed" : String) ≠ "processing" := by
  decide

/-- C1 (amended): the duplex stop signal sets an existing session's status
directly to `completed` with `endedAt` recorded, whatever the prior status
— so `completed` is reached by stop handling alone; the status
`processing` is never entered and `totalChunksExpected` never set, because
the final-chunk upload notification always fails on the unmapped
session-update keys and commits nothing. -/
theorem C1_stop_completes_and_notification_fails :
    (∀ (st : DBState) (sid : String) (now : Nat) (s : Session),
        findSession st sid = some s →
        (handle_stop_streaming sid now st).1.session =
          some { s with status := "completed", endTime := some now }) ∧
    (∀ (n : ChunkNotification) (now : Nat) (st : DBState),
        (notify_chunk_uploaded n now st).1 = st ∧
        ∃ e, (notify_chunk_uploaded n now st).2 = Except.error e) := by
  constructor
  · intro st sid now s h
    unfold handle_stop_streaming
    rw [h]
  · intro n now st
    exact notify_chunk_uploaded_fails n now st

/-- C1 witness: the amended theorem applied to a fresh recording session,
for both the stop signal and a final-chunk notification. -/
theorem C1_stop_completes_and_notification_fails_witness :
    ((handle_stop_streaming "s1" 3 freshState).1.session =
      some { sampleSession with status := "completed", endTime := some 3 }) ∧
    ((notify_chunk_uploaded lastNotification 3 freshState).1 = freshState ∧
     ∃ e, (notify_chunk_uploaded lastNotification 3 freshState).2 = Except.error e) :=
  ⟨C1_stop_completes_and_notification_fails.1 freshState "s1" 3 sampleSession (by decide),
   C1_stop_completes_and_notification_fails.2 lastNotification 3 freshState⟩

/-- C2 counterexample: a payload for the bound recording session, with a
store that would succeed on any attempt, results in zero upload attempts —
not a fixed three — and no chunk row: the handler faults on the undeclared
session counter before any store call. -/
theorem C2_zero_attempts_counterexample :
    process_audio_chunk "s1" 10 (fun k => UploadOutcome.ok none) 7 freshState =
      (freshState, 0) ∧
    freshState.chunks = [] ∧
    (0 : Nat) ≠ 3 := by
  decide

/-- C2 (amended): for every chunk payload received on the ingestion path,
no object-store upload is attempted at all and no chunk row is created:
reading the undeclared `last_chunk_number` raises before the store call and
the error is swallowed; consequently no chunk is ever marked `failed` —
the ledger schema has no `upload_status` column in the first place. -/
theorem C2_no_upload_attempt :
    (∀ (sid : String) (len : Nat) (a : Nat → UploadOutcome) (now : Nat) (st : DBState),
        process_audio_chunk sid len a now st = (st, 0)) ∧
    (sessionDeclaredAttrs.contains "last_chunk_number" = false) ∧
    (audioChunkDeclaredAttrs.contains "upload_status" = false) := by
  refine ⟨?_, by decide, by decide⟩
  intro sid len a now st
  exact process_audio_chunk_noop sid len a now st

/-- C3 counterexample: delivering `(sessionId, chunkNumber) = ("s1", 2)`
again, when a chunk-2 record already exists, does not return success: the
notification fails on the unmapped session-update keys, and the ledger
keeps exactly one record for that pair. -/
theorem C3_duplicate_no_success_counterexample :
    (notify_chunk_uploaded dupNotification 7 dupState).1 = dupState ∧
    (notify_chunk_uploaded dupNotification 7 dupState).2 =
      Except.error "InvalidRequestError: unmapped attribute in Query.update" ∧
    chunkRecordCount (notify_chunk_uploaded dupNotification 7 dupState).1 "s1" 2 = 1 := by
  exact ⟨rfl, rfl, rfl⟩

/-- C3 (amended): a repeated delivery of the same `(sessionId,
chunkNumber)` is not accepted as a no-op success: every upload
notification, duplicate or first, fails with an error before touching the
chunk ledger — so no second record is created, but no success is returned
either. -/
theorem C3_notification_never_succeeds :
    ∀ (n : ChunkNotification) (now : Nat) (st : DBState),
      (notify_chunk_uploaded n now st).1 = st ∧
      (∃ e, (notify_chunk_uploaded n now st).2 = Except.error e) ∧
      chunkRecordCount (notify_chunk_uploaded n now st).1 n.sessionId n.chunkNumber =
        chunkRecordCount st n.sessionId n.chunkNumber := by
  intro n now st
  obtain ⟨h1, h2⟩ := notify_chunk_uploaded_fails n now st
  exact ⟨h1, h2, by rw [h1]⟩

/-- C4 (code bug): `totalChunksExpected` is never set by this subsystem:
`models.Session` declares no `total_chunks_expected` attribute, every
upload notification fails before committing, and every
`crud.update_session_status` call (the writer used by the status
endpoints) raises on its unmapped keys. -/
theorem C4_total_never_set :
    (sessionDeclaredAttrs.contains "total_chunks_expected" = false) ∧
    (∀ (n : ChunkNotification) (now : Nat) (st : DBState),
        (notify_chunk_uploaded n now st).1 = st ∧
        ∃ e, (notify_chunk_uploaded n now st).2 = Except.error e) ∧
    (∀ (sid stat : String) (extraKeys : List String) (apply2 : Session → Session)
        (st : DBState),
        update_session_status sid stat extraKeys apply2 st =
          Except.error "InvalidRequestError: unmapped attribute in Query.update") := by
  refine ⟨by decide, ?_, ?_⟩
  · intro n now st
    exact notify_chunk_uploaded_fails n now st
  · intro sid stat extraKeys apply2 st
    exact update_session_status_raises sid stat extraKeys apply2 st

/-- C5 (code bug): for every existing session, `computeProgress`
(`crud.get_session_progress`) raises on the undeclared attributes
`upload_status` / `total_chunks_expected` and never returns
`missingChunks`; the formula written in its body (dead code in this
program) is, however, exactly the spec's sorted set difference. -/
theorem C5_progress_raises_formula_dead :
    (∀ (st : DBState) (sid : String) (s : Session),
        findSession st sid = some s →
        ∃ e, get_session_progress st sid = Except.error e) ∧
    (sessionDeclaredAttrs.contains "total_chunks_expected" = false) ∧
    (audioChunkDeclaredAttrs.contains "upload_status" = false) ∧
    (∀ (total : Option Int) (up : List Int),
        missing_chunks_calc total up = specMissingChunks total up ∧
        List.Sorted (fun a b => a < b) (missing_chunks_calc total up) ∧
        (total = none → missing_chunks_calc total up = [])) := by
  refine ⟨?_, by decide, by decide, ?_⟩
  · intro st sid s h
    unfold get_session_progress
    rw [h]
    show ∃ e, (if (get_chunks_by_session_id st sid).isEmpty then
        Except.error "AttributeError: total_chunks_expected"
      else Except.error "AttributeError: upload_status") = Except.error e
    by_cases hc : (get_chunks_by_session_id st sid).isEmpty
    · rw [if_pos hc]
      exact ⟨_, rfl⟩
    · rw [if_neg hc]
      exact ⟨_, rfl⟩
  · intro total up
    refine ⟨missing_calc_eq_spec total up, sorted_lt_missing_calc total up, ?_⟩
    intro h0
    rw [h0]
    rfl

/-- C5 witness: the progress call on the existing fresh session raises,
and the dead formula evaluated at the spec example (`totalExpected = 5`,
uploaded `{1,2,4}`) equals the sorted set difference, concretely `[3,5]`. -/
theorem C5_progress_raises_formula_dead_witness :
    (∃ e, get_session_progress freshState "s1" = Except.error e) ∧
    (missing_chunks_calc (some 5) [1, 2, 4] = specMissingChunks (some 5) [1, 2, 4] ∧
     List.Sorted (fun a b => a < b) (missing_chunks_calc (some 5) [1, 2, 4]) ∧
     (some (5 : Int) = none → missing_chunks_calc (some 5) [1, 2, 4] = [])) ∧
    missing_chunks_calc (some 5) [1, 2, 4] = [3, 5] :=
  ⟨C5_progress_raises_formula_dead.1 freshState "s1" sampleSession (by decide),
   C5_progress_raises_formula_dead.2.2.2 (some 5) [1, 2, 4],
   by decide⟩

/-- C6 (code bug): no operation maintains `lastChunkNumber`:
`models.Session` declares no such column, the payload handler faults
reading it and changes nothing (zero store calls), and the notification
update always raises before committing — so the counter is neither
advanced nor decreased, it simply does not exist. -/
theorem C6_last_chunk_number_not_maintained :
    (sessionDeclaredAttrs.contains "last_chunk_number" = false) ∧
    (∀ (sid : String) (len : Nat) (a : Nat → UploadOutcome) (now : Nat) (st : DBState),
        process_audio_chunk sid len a now st = (st, 0)) ∧
    (∀ (n : ChunkNotification) (now : Nat) (st : DBState),
        (notify_chunk_uploaded n now st).1 = st ∧
        ∃ e, (notify_chunk_uploaded n now st).2 = Except.error e) := by
  refine ⟨by decide, ?_, ?_⟩
  · intro sid len a now st
    exact process_audio_chunk_noop sid len a now st
  · intro n now st
    exact notify_chunk_uploaded_fails n now st

/-- C7 (code bug): no `failed` chunk record can ever be produced: the
ledger schema has no `upload_status` column at all, and the payload
handler faults on the undeclared session counter before building the chunk
record or calling the store, leaving the ledger and the session row
untouched. -/
theorem C7_no_failed_chunk_record :
    (audioChunkDeclaredAttrs.contains "upload_status" = false) ∧
    (sessionDeclaredAttrs.contains "last_chunk_number" = false) ∧
    (∀ (sid : String) (len : Nat) (a : Nat → UploadOutcome) (now : Nat) (st : DBState),
        process_audio_chunk sid len a now st = (st, 0) ∧
        ((process_audio_chunk sid len a now st).1).chunks = st.chunks ∧
        ((process_audio_chunk sid len a now st).1).session = st.session) := by
  refine ⟨by decide, by decide, ?_⟩
  intro sid len a now st
  refine ⟨process_audio_chunk_noop sid len a now st, ?_, ?_⟩
  · rw [process_audio_chunk_noop sid len a now st]
  · rw [process_audio_chunk_noop sid len a now st]

/-- C8 counterexample: an explicit pause request (REST) on the session in
status `recording` does not succeed: it errors on the undeclared pause
counter with the status left `recording`; and the duplex pause handler
merely acknowledges without touching state. -/
theorem C8_pause_never_succeeds_counterexample :
    (pause_session_route "s1" none 7 freshState).1 = freshState ∧
    (pause_session_route "s1" none 7 freshState).2 =
      Except.error "AttributeError: pause_count" ∧
    sampleSession.status = "recording" ∧
    handle_pause_streaming "s1" freshState = (freshState, [WsMsg.streamingPaused "s1"]) := by
  exact ⟨rfl, rfl, rfl, rfl⟩

/-- C8 (amended): no pause request ever succeeds: on a session in status
`recording` the REST endpoint raises on the undeclared `pause_count`
before committing (error, state unchanged); on any other status it rejects
with an error, state unchanged; and the duplex `pause_streaming` handler
always acknowledges success while neither reading nor writing session
state. -/
theorem C8_pause_requests_never_pause :
    (∀ (sid : String) (r : Option String) (now : Nat) (st : DBState) (s : Session),
        findSession st sid = some s → s.status = "recording" →
        pause_session_route sid r now st =
          (st, Except.error "AttributeError: pause_count")) ∧
    (∀ (sid : String) (r : Option String) (now : Nat) (st : DBState) (s : Session),
        findSession st sid = some s → s.status ≠ "recording" →
        pause_session_route sid r now st =
          (st, Except.error "Session is not currently recording")) ∧
    (∀ (sid : String) (st : DBState),
        handle_pause_streaming sid st = (st, [WsMsg.streamingPaused sid])) ∧
    (sessionDeclaredAttrs.contains "pause_count" = false) := by
  refine ⟨?_, ?_, ?_, by decide⟩
  · intro sid r now st s h hstat
    unfold pause_session_route
    rw [h]
    show (if s.status = "recording" then crud_pause_session sid now st
        else (st, Except.error "Session is not currently recording")) = _
    rw [if_pos hstat]
    unfold crud_pause_session
    rw [h]
  · intro sid r now st s h hstat
    unfold pause_session_route
    rw [h]
    show (if s.status = "recording" then crud_pause_session sid now st
        else (st, Except.error "Session is not currently recording")) = _
    rw [if_neg hstat]
  · intro sid st
    rfl

/-- C8 witness: the amended theorem applied to a recording session (REST
pause raises), a processing session (REST pause rejected) and the duplex
no-op acknowledgement. -/
theorem C8_pause_requests_never_pause_witness :
    pause_session_route "s1" none 7 freshState =
      (freshState, Except.error "AttributeError: pause_count") ∧
    pause_session_route "s1" none 7 processingState =
      (processingState, Except.error "Session is not currently recording") ∧
    handle_pause_streaming "s1" processingState =
      (processingState, [WsMsg.streamingPaused "s1"]) :=
  ⟨C8_pause_requests_never_pause.1 "s1" none 7 freshState sampleSession (by decide) rfl,
   C8_pause_requests_never_pause.2.1 "s1" none 7 processingState
     { sampleSession with status := "processing" } (by decide) (by decide),
   C8_pause_requests_never_pause.2.2.1 "s1" processingState⟩

/-- C9 counterexample: with no backing provider configured, the upload
operation reports failure (`success = false`, error `"Supabase not
configured"`), not success against a local/mock location. -/
theorem C9_upload_no_provider_counterexample :
    (upload_audio_chunk false (Except.error "unused") "sessions/s1/chunk_1.mp3").success
        = false ∧
    (upload_audio_chunk false (Except.error "unused") "sessions/s1/chunk_1.mp3").error
        = some "Supabase not configured" := by
  decide

/-- C9 (amended): with no backing provider configured, presign
deterministically succeeds against the local/mock location and listing
deterministically returns the empty listing, but upload deterministically
reports failure. -/
theorem C9_no_provider_behavior :
    ∀ (p1 : Except String PresignResult) (p2 : Except String (List ChunkDescriptor))
      (p3 : Except String UploadServiceResult) (bucketName filePath sid : String),
      generate_presigned_url false p1 bucketName filePath =
        { success := true, presignedUrl := "https://httpbin.org/put",
          publicUrl := "https://mock-storage.local/" ++ bucketName ++ "/" ++ filePath,
          path := filePath } ∧
      get_session_audio_chunks false p2 sid = [] ∧
      upload_audio_chunk false p3 filePath =
        { success := false, path := none, publicUrl := none,
          error := some "Supabase not configured" } := by
  intro p1 p2 p3 b f sid
  exact ⟨rfl, rfl, rfl⟩

/-- C10: a binary audio frame arriving on a connection with no bound
session in the registry is silently dropped — the store is unchanged and no
reply (neither acknowledgement nor error) is sent. -/
theorem C10_unbound_audio_frame_dropped :
    ∀ (reg : List (String × String)) (cid : String) (len : Nat)
      (a : Nat → UploadOutcome) (now : Nat) (st : DBState),
      resolveSession reg cid = none →
      handle_audio_data reg cid len a now st = (st, []) := by
  intro reg cid len a now st h
  unfold handle_audio_data
  rw [h]

/-- C10 witness: the theorem applied to a registry binding session `"s1"`
to connection `"c1"` while the frame arrives on connection `"c2"`. -/
theorem C10_unbound_audio_frame_dropped_witness :
    handle_audio_data [("s1", "c1")] "c2" 10 (fun _ => UploadOutcome.ok none) 7 freshState =
      (freshState, []) :=
  C10_unbound_audio_frame_dropped [("s1", "c1")] "c2" 10 (fun _ => UploadOutcome.ok none) 7
    freshState (by decide)

end MediNote
